import Mathlib

/-!
Shallow embedding of the PROMPT_TRAINER backend (evaluation-and-feedback
subsystem): the scoring-type validator, the model-adapter selection and the
stub and Ollama adapters, the prompt version manager, the evaluation
lifecycle manager, and the feedback recorder, translated from
src/backend/app (api/evaluations.py, api/prompts.py,
services/model_adapter.py, services/sanitization.py, models/database.py,
core/config.py).

The relational store is modelled as lists of rows plus autoincrement
counters. The prompt operations return an exceptional result together with
the updated store; the evaluation and feedback operations return the store
after the request together with the HTTP-level outcome, because the code
commits before serializing the response, so a serialization failure leaves
the committed rows in place while a failure before the commit rolls the
session back (discarding flushed rows). HTTPException is modelled by
ApiFailure.http carrying a status code; Python exceptions that escape a
handler are modelled by ApiFailure.uncaught. The criteria table declares
no min_score or max_score column and the feedback_entries table declares
no rubric_id column (criterion_id being NOT NULL), so the endpoint code
paths that read or pass those attributes raise AttributeError or
TypeError; the embedding reproduces those failures where they occur.
-/

namespace PromptTrainer

instance {ε α : Type} [DecidableEq ε] [DecidableEq α] : DecidableEq (Except ε α) := fun x y =>
  match x, y with
  | Except.ok a, Except.ok b =>
    if h : a = b then isTrue (by rw [h]) else isFalse (by intro hc; cases hc; exact h rfl)
  | Except.error a, Except.error b =>
    if h : a = b then isTrue (by rw [h]) else isFalse (by intro hc; cases hc; exact h rfl)
  | Except.ok _, Except.error _ => isFalse (by intro hc; cases hc)
  | Except.error _, Except.ok _ => isFalse (by intro hc; cases hc)

/-- JSON-like values, standing for the Python dict/list/str/int payloads that
flow through the evaluation endpoints. -/
inductive Json where
  | null : Json
  | bool (b : Bool) : Json
  | int (n : Int) : Json
  | str (s : String) : Json
  | arr (items : List Json) : Json
  | obj (fields : List (String × Json)) : Json

/-- Python truthiness of a JSON-like value: None, False, 0, empty string,
empty list and empty dict are falsy. -/
def pyTruthy : Json → Bool
  | Json.null => false
  | Json.bool b => b
  | Json.int n => n != 0
  | Json.str s => s != ""
  | Json.arr items => !items.isEmpty
  | Json.obj fields => !fields.isEmpty

/-- Lower-casing of a single ASCII character, as Python str.lower acts on the
characters appearing in this code base. -/
def pyLowerChar (c : Char) : Char :=
  if 'A' ≤ c ∧ c ≤ 'Z' then Char.ofNat (c.toNat + 32) else c

/-- Python str.lower. -/
def pyLower (s : String) : String := String.mk (s.data.map pyLowerChar)

/-- Python str.strip(): drop leading and trailing whitespace. -/
def pyStrip (s : String) : String :=
  String.mk (((s.data.dropWhile Char.isWhitespace).reverse.dropWhile Char.isWhitespace).reverse)

/-- Substring search on character lists (Python, the in operator). -/
def subListSearch [BEq α] (pat : List α) : List α → Bool
  | [] => pat.isEmpty
  | x :: rest => pat.isPrefixOf (x :: rest) || subListSearch pat rest

/-- Python substring containment: pat in s. -/
def containsSub (s pat : String) : Bool := subListSearch pat.data s.data

/-- Tail of a digit run as accepted by Python int(): underscores may only
appear between digits, and the run must end with a digit. The first
argument is the previously consumed character. -/
def digitRunTail : Char → List Char → Bool
  | prev, [] => prev.isDigit
  | prev, c :: rest =>
    (if c = '_' then prev.isDigit else c.isDigit) && digitRunTail c rest

/-- A nonempty digit run (first character must be a digit). -/
def validDigitRun : List Char → Bool
  | [] => false
  | c :: rest => c.isDigit && digitRunTail c rest

/-- Numeric value of a digit run, ignoring underscores. -/
def digitsVal (l : List Char) : Nat :=
  l.foldl (fun n c => if c = '_' then n else n * 10 + (c.toNat - 48)) 0

/-- Python int() applied to an already stripped string: an optional sign
followed by a digit run. Returns none when int() raises ValueError. -/
def pythonParseInt (s : String) : Option Int :=
  match s.data with
  | '+' :: rest => if validDigitRun rest then some (Int.ofNat (digitsVal rest)) else none
  | '-' :: rest => if validDigitRun rest then some (-(Int.ofNat (digitsVal rest))) else none
  | l => if validDigitRun l then some (Int.ofNat (digitsVal l)) else none

/-- A row of the criteria table as declared in models/database.py: id,
rubric_id, name, description and order. The model declares no min_score or
max_score column, so reading those attributes on a row raises
AttributeError in the endpoints that do. -/
structure Criterion where
  id : Nat
  rubric_id : Nat
  name : String
  description : Option String
  order : Int
deriving DecidableEq, Repr

/-- HTTP-level failures of an endpoint: http models fastapi.HTTPException
with its status code and detail, uncaught models a Python exception that
escapes the endpoint handler (named by its exception class). -/
inductive ApiFailure where
  | http (statusCode : Nat) (detail : String) : ApiFailure
  | uncaught (exceptionName : String) : ApiFailure
deriving DecidableEq, Repr

/-- Embedding of _validate_corrected_score (api/evaluations.py) over the
criteria table as declared in models/database.py: per scoring type,
normalize or reject the corrected score with a 422; the numerical branch
first parses the stripped score with int() (a parse failure is the 422
rejection), and then, when a criterion row was supplied, reads
criterion.min_score - an attribute the Criterion model does not define -
so it raises an uncaught AttributeError for every parsable score. -/
def validateCorrectedScore (scoringType : String) (correctedScore : String)
    (criterion : Option Criterion) : Except ApiFailure String :=
  if scoringType = "yes_no" then
    let normalized := pyLower (pyStrip correctedScore)
    if normalized = "yes" ∨ normalized = "no" then Except.ok normalized
    else Except.error (ApiFailure.http 422
      ("For yes/no rubrics, corrected score must be yes or no."))
  else if scoringType = "meets_not_meets" then
    let normalized := pyLower (pyStrip correctedScore)
    if normalized = "meets" ∨ normalized = "does_not_meet" then Except.ok normalized
    else Except.error (ApiFailure.http 422
      ("For meets/not-meets rubrics, corrected score must be meets or does_not_meet."))
  else if scoringType = "numerical" then
    match pythonParseInt (pyStrip correctedScore) with
    | none => Except.error (ApiFailure.http 422
        ("For numerical rubrics, corrected score must be an integer."))
    | some score =>
      match criterion with
      | none => Except.ok (toString score)
      | some _ => Except.error (ApiFailure.uncaught ("AttributeError"))
  else
    Except.ok (pyStrip correctedScore)

/-- True exactly for the 502 responses produced when the evaluation backend
is unavailable. -/
def isBadGateway : ApiFailure → Bool
  | ApiFailure.http 502 _ => true
  | _ => false

/-- A row of the papers table (fields read by the evaluation endpoints). -/
structure Paper where
  id : Nat
  title : String
  content : String
  rubric_id : Option Nat
deriving DecidableEq, Repr

/-- A row of the rubrics table. -/
structure Rubric where
  id : Nat
  name : String
  description : Option String
  scoring_type : String
deriving DecidableEq, Repr

/-- A row of the prompts table; created_at and the float accuracy_rate are
not modelled (no endpoint in the embedded core reads them). -/
structure Prompt where
  id : Nat
  version : Nat
  template_text : String
  parent_version_id : Option Nat
  is_active : Bool
  total_evaluations : Nat
deriving DecidableEq, Repr

/-- A row of the evaluations table; model_response holds the serialized
JSON text, created_at is an abstract timestamp. -/
structure Evaluation where
  id : Nat
  paper_id : Nat
  rubric_id : Nat
  prompt_id : Nat
  model_response : String
  is_correct : Option Bool
  created_at : Nat
deriving DecidableEq, Repr

/-- A row of the feedback_entries table as declared in models/database.py:
id, evaluation_id, criterion_id (NOT NULL), model_score,
user_corrected_score, user_explanation and created_at. The model declares
no rubric_id column, so the constructor rejects a rubric_id keyword with
TypeError and reading entry.rubric_id raises AttributeError. -/
structure FeedbackEntry where
  id : Nat
  evaluation_id : Nat
  criterion_id : Nat
  model_score : String
  user_corrected_score : String
  user_explanation : Option String
  created_at : Nat
deriving DecidableEq, Repr

/-- The relational store: one list of rows per table plus autoincrement
counters for the tables whose inserts the embedded operations perform. -/
structure Db where
  papers : List Paper
  rubrics : List Rubric
  criteria : List Criterion
  prompts : List Prompt
  evaluations : List Evaluation
  feedback_entries : List FeedbackEntry
  next_prompt_id : Nat
  next_evaluation_id : Nat
  next_feedback_id : Nat
deriving DecidableEq, Repr

/-- The freshly initialized store (SQLite autoincrement starts at 1). -/
def Db.empty : Db :=
  { papers := [], rubrics := [], criteria := [], prompts := [],
    evaluations := [], feedback_entries := [],
    next_prompt_id := 1, next_evaluation_id := 1, next_feedback_id := 1 }

def findPaper (db : Db) (paperId : Nat) : Option Paper :=
  db.papers.find? (fun p => p.id == paperId)

def findRubric (db : Db) (rubricId : Nat) : Option Rubric :=
  db.rubrics.find? (fun r => r.id == rubricId)

def findCriterion (db : Db) (criterionId : Nat) : Option Criterion :=
  db.criteria.find? (fun c => c.id == criterionId)

def findPrompt (db : Db) (promptId : Nat) : Option Prompt :=
  db.prompts.find? (fun p => p.id == promptId)

def findEvaluation (db : Db) (evaluationId : Nat) : Option Evaluation :=
  db.evaluations.find? (fun e => e.id == evaluationId)

/-- The script-tag start of sanitization.py: the characters s c r i p t,
case-insensitively. -/
def matchesScript : List Char → Bool
  | c0 :: c1 :: c2 :: c3 :: c4 :: c5 :: _ =>
    pyLowerChar c0 == 's' && pyLowerChar c1 == 'c' && pyLowerChar c2 == 'r' &&
    pyLowerChar c3 == 'i' && pyLowerChar c4 == 'p' && pyLowerChar c5 == 't'
  | _ => false

/-- After an opening angle bracket: skip whitespace, then expect script. -/
def afterAngle : List Char → Bool
  | [] => false
  | c :: rest => if c.isWhitespace then afterAngle rest else matchesScript (c :: rest)

/-- Search for the forbidden pattern of sanitization.py (an angle bracket,
optional whitespace, then script, case-insensitively). -/
def hasScriptTagChars : List Char → Bool
  | [] => false
  | c :: rest => (c == '<' && afterAngle rest) || hasScriptTagChars rest

def hasScriptTag (s : String) : Bool := hasScriptTagChars s.data

/-- Embedding of sanitize_text (services/sanitization.py) on a present
string: trim, enforce length bounds, reject script tags. -/
def sanitizeText (value : String) (minLength maxLength : Nat) : Except ApiFailure String :=
  let cleaned := pyStrip value
  if cleaned.length < minLength then
    Except.error (ApiFailure.http 422 ("field too short"))
  else if maxLength < cleaned.length then
    Except.error (ApiFailure.http 422 ("field too long"))
  else if hasScriptTag cleaned then
    Except.error (ApiFailure.http 422 ("field contains disallowed content"))
  else Except.ok cleaned

/-- REQUIRED_PLACEHOLDERS of api/prompts.py. -/
def requiredPlaceholders : List String :=
  ["\x7b\x7bpaper_content\x7d\x7d", "\x7b\x7brubric\x7d\x7d"]

def validatePlaceholdersAux (templateText : String) : List String → Except ApiFailure Unit
  | [] => Except.ok ()
  | ph :: rest =>
    if containsSub templateText ph then validatePlaceholdersAux templateText rest
    else Except.error (ApiFailure.http 422 ("Prompt must include placeholder " ++ ph))

/-- Embedding of _validate_placeholders (api/prompts.py). -/
def validatePlaceholders (templateText : String) : Except ApiFailure Unit :=
  validatePlaceholdersAux templateText requiredPlaceholders

/-- Embedding of _ensure_single_active (api/prompts.py): set is_active to
false on every prompt whose id differs from the optional given id (all
prompts when no id is given). -/
def ensureSingleActive (prompts : List Prompt) (activePromptId : Option Nat) : List Prompt :=
  prompts.map (fun p => if activePromptId == some p.id then p else { p with is_active := false })

/-- Highest existing version across all prompts, 0 when none exist
(the order_by version desc / first query of create_prompt). -/
def maxVersion (prompts : List Prompt) : Nat :=
  prompts.foldl (fun acc p => max acc p.version) 0

/-- Request body of POST /api/prompts (schemas/prompt.py PromptCreate;
is_active defaults to true at the schema boundary). -/
structure PromptCreatePayload where
  template_text : String
  parent_version_id : Option Nat
  is_active : Bool
deriving DecidableEq, Repr

/-- Request body of PUT /api/prompts/(id); none models an unset field. -/
structure PromptUpdatePayload where
  template_text : Option String
  is_active : Option Bool
deriving DecidableEq, Repr

/-- Embedding of create_prompt (api/prompts.py): resolve the version from
the parent (Python truthiness: parent id 0 counts as absent) or from the
global maximum, sanitize the template, check placeholders, insert, and if
the new prompt is active deactivate all the others. -/
def createPrompt (db : Db) (payload : PromptCreatePayload) : Except ApiFailure (Prompt × Db) :=
  let parentGiven : Option Nat :=
    match payload.parent_version_id with
    | some pid => if pid = 0 then none else some pid
    | none => none
  match (match parentGiven with
         | some pid =>
           match findPrompt db pid with
           | none => Except.error (ApiFailure.http 404 ("Parent prompt not found"))
           | some parent => Except.ok (parent.version + 1)
         | none => Except.ok (maxVersion db.prompts + 1)) with
  | Except.error e => Except.error e
  | Except.ok version =>
    match sanitizeText payload.template_text 1 10000 with
    | Except.error e => Except.error e
    | Except.ok templateText =>
      match validatePlaceholders templateText with
      | Except.error e => Except.error e
      | Except.ok _ =>
        let prompt : Prompt :=
          { id := db.next_prompt_id, version := version, template_text := templateText,
            parent_version_id := payload.parent_version_id,
            is_active := payload.is_active, total_evaluations := 0 }
        let prompts1 := db.prompts ++ [prompt]
        let prompts2 :=
          if payload.is_active then ensureSingleActive prompts1 (some prompt.id) else prompts1
        Except.ok (prompt, { db with prompts := prompts2, next_prompt_id := db.next_prompt_id + 1 })

/-- Embedding of update_prompt (api/prompts.py): optionally replace the
template (same sanitization and placeholder check), then apply the
is_active field; activating deactivates every other prompt. -/
def updatePrompt (db : Db) (promptId : Nat) (payload : PromptUpdatePayload) :
    Except ApiFailure (Prompt × Db) :=
  match findPrompt db promptId with
  | none => Except.error (ApiFailure.http 404 ("Prompt not found"))
  | some prompt =>
    match (match payload.template_text with
           | none => Except.ok prompt
           | some t =>
             match sanitizeText t 1 10000 with
             | Except.error e => Except.error e
             | Except.ok cleaned =>
               match validatePlaceholders cleaned with
               | Except.error e => Except.error e
               | Except.ok _ => Except.ok { prompt with template_text := cleaned }) with
    | Except.error e => Except.error e
    | Except.ok p1 =>
      match payload.is_active with
      | some true =>
        let p2 := { p1 with is_active := true }
        let prompts1 := db.prompts.map (fun p => if p.id == promptId then p1 else p)
        let prompts2 := ensureSingleActive prompts1 (some promptId)
        Except.ok (p2, { db with prompts := prompts2.map (fun p => if p.id == promptId then p2 else p) })
      | some false =>
        let p2 := { p1 with is_active := false }
        Except.ok (p2, { db with prompts := db.prompts.map (fun p => if p.id == promptId then p2 else p) })
      | none =>
        Except.ok (p1, { db with prompts := db.prompts.map (fun p => if p.id == promptId then p1 else p) })

/-- Embedding of activate_prompt (api/prompts.py). -/
def activatePrompt (db : Db) (promptId : Nat) : Except ApiFailure (Prompt × Db) :=
  match findPrompt db promptId with
  | none => Except.error (ApiFailure.http 404 ("Prompt not found"))
  | some prompt =>
    let prompts1 := ensureSingleActive db.prompts (some promptId)
    Except.ok ({ prompt with is_active := true },
      { db with prompts := prompts1.map (fun p => if p.id == promptId then { p with is_active := true } else p) })

/-- The prompt of lowest id, none when the table is empty (the
order_by id asc / first query of _get_or_create_default_prompt). -/
def minById : List Prompt → Option Prompt
  | [] => none
  | p :: rest =>
    match minById rest with
    | none => some p
    | some q => some (if p.id ≤ q.id then p else q)

/-- The template of the lazily created default prompt
(_get_or_create_default_prompt, api/evaluations.py). -/
def defaultPromptTemplate : String :=
  "Evaluate \x7b\x7bpaper_content\x7d\x7d using rubric \x7b\x7brubric\x7d\x7d"

/-- Embedding of _get_or_create_default_prompt (api/evaluations.py): return
the lowest-id prompt, or insert a version-1 active default prompt. -/
def getOrCreateDefaultPrompt (db : Db) : Prompt × Db :=
  match minById db.prompts with
  | some p => (p, db)
  | none =>
    let prompt : Prompt :=
      { id := db.next_prompt_id, version := 1, template_text := defaultPromptTemplate,
        parent_version_id := none, is_active := true, total_evaluations := 0 }
    (prompt, { db with prompts := db.prompts ++ [prompt], next_prompt_id := db.next_prompt_id + 1 })

/-- Settings of core/config.py. -/
structure Settings where
  model_provider : String
  ollama_enabled : Bool
  ollama_base_url : String
  ollama_model : String
deriving DecidableEq, Repr

/-- The environment-default settings. -/
def defaultSettings : Settings :=
  { model_provider := "stub", ollama_enabled := false,
    ollama_base_url := "http://localhost:11434", ollama_model := "llama3.1:8b" }

/-- The adapter chosen by get_adapter. -/
inductive AdapterChoice where
  | stub : AdapterChoice
  | ollama (baseUrl model : String) : AdapterChoice
deriving DecidableEq, Repr

/-- Embedding of get_adapter (services/model_adapter.py): chosen is the
provider argument when truthy, else the model_provider setting; the Ollama
adapter is used when chosen equals ollama or the ollama_enabled flag is
set; otherwise the stub. -/
def getAdapter (provider : Option String) (settings : Settings) : AdapterChoice :=
  let chosen :=
    match provider with
    | some p => if p = "" then settings.model_provider else p
    | none => settings.model_provider
  if chosen = "ollama" ∨ settings.ollama_enabled then
    AdapterChoice.ollama settings.ollama_base_url settings.ollama_model
  else AdapterChoice.stub

/-- One criterion of the rubric descriptor dict handed to an adapter; none
models an absent key (dict.get then applies its default). -/
structure CriterionDescriptor where
  id : Option Nat
  name : Option String
  description : Option String
  min_score : Option Int
  max_score : Option Int
deriving DecidableEq, Repr

/-- The rubric descriptor dict handed to an adapter. -/
structure RubricDescriptor where
  id : Option Nat
  name : Option String
  scoring_type : Option String
  criteria : List CriterionDescriptor
deriving DecidableEq, Repr

/-- A stub score: string for the enumerated scoring types, integer midpoint
for numerical (Python values are heterogeneous). -/
inductive ScoreValue where
  | str (s : String) : ScoreValue
  | int (n : Int) : ScoreValue
deriving DecidableEq, Repr

/-- One entry of the stub response. -/
structure StubEvaluationEntry where
  criterion_id : Option Nat
  criterion_name : Option String
  score : ScoreValue
  reasoning : String
deriving DecidableEq, Repr

/-- The stub response dict. -/
structure StubResponse where
  evaluations : List StubEvaluationEntry
deriving DecidableEq, Repr

/-- Embedding of StubModelAdapter.evaluate (services/model_adapter.py):
deterministic per-criterion scores driven by the scoring type, bounds
defaulting to 0 and 10, integer floor division for the midpoint. -/
def stubEvaluate (paperContent : String) (rubric : RubricDescriptor) : StubResponse :=
  let scoringType := rubric.scoring_type.getD ("yes_no")
  { evaluations := rubric.criteria.map (fun c =>
      { criterion_id := c.id
        criterion_name := c.name
        score :=
          if scoringType = "yes_no" then ScoreValue.str ("yes")
          else if scoringType = "meets_not_meets" then ScoreValue.str ("meets")
          else if scoringType = "numerical" then
            ScoreValue.int (Int.fdiv ((c.min_score.getD 0) + (c.max_score.getD 10)) 2)
          else ScoreValue.str ("yes")
        reasoning := "Stubbed evaluation for " ++ scoringType ++ " scoring" }) }

def jsonOfOptionNat : Option Nat → Json
  | none => Json.null
  | some n => Json.int (Int.ofNat n)

def jsonOfOptionString : Option String → Json
  | none => Json.null
  | some s => Json.str s

def jsonOfScoreValue : ScoreValue → Json
  | ScoreValue.str s => Json.str s
  | ScoreValue.int n => Json.int n

def jsonOfStubEntry (e : StubEvaluationEntry) : Json :=
  Json.obj [("criterion_id", jsonOfOptionNat e.criterion_id),
            ("criterion_name", jsonOfOptionString e.criterion_name),
            ("score", jsonOfScoreValue e.score),
            ("reasoning", Json.str e.reasoning)]

/-- The stub response dict as a JSON value (what json.dumps receives). -/
def jsonOfStubResponse (r : StubResponse) : Json :=
  Json.obj [("evaluations", Json.arr (r.evaluations.map jsonOfStubEntry))]

/-- Outcome of the single HTTP call the Ollama adapter performs: a
transport-level httpx error, or a response with a status code and a body
that either parses as JSON or does not (none). -/
inductive OllamaOutcome where
  | transportError (message : String) : OllamaOutcome
  | response (statusCode : Nat) (body : Option Json) : OllamaOutcome

/-- Failure of an adapter evaluate call: runtimeError is the RuntimeError
the Ollama adapter raises for httpx errors (caught by create_evaluation);
uncaught is a Python exception class the adapter does not catch. -/
inductive AdapterError where
  | runtimeError (message : String) : AdapterError
  | uncaught (exceptionName : String) : AdapterError
deriving DecidableEq, Repr

/-- Python dict key lookup on a JSON object field list. -/
def pyLookup (fields : List (String × Json)) (key : String) : Option Json :=
  (fields.find? (fun kv => kv.fst == key)).map (fun kv => kv.snd)

/-- Embedding of OllamaAdapter.evaluate (services/model_adapter.py): an
httpx error (transport failure, or raise_for_status on a non-2xx status)
becomes RuntimeError; then the body is decoded as JSON - a non-JSON body
raises json JSONDecodeError and a non-dict body raises AttributeError,
neither of which the adapter catches - and the response field (default
empty string) is wrapped as the raw dict. -/
def ollamaEvaluate (outcome : OllamaOutcome) : Except AdapterError Json :=
  match outcome with
  | OllamaOutcome.transportError _ =>
    Except.error (AdapterError.runtimeError ("Ollama request failed"))
  | OllamaOutcome.response statusCode body =>
    if statusCode < 200 ∨ 300 ≤ statusCode then
      Except.error (AdapterError.runtimeError ("Ollama request failed"))
    else
      match body with
      | none => Except.error (AdapterError.uncaught ("JSONDecodeError"))
      | some (Json.obj fields) =>
        Except.ok (Json.obj [("raw", (pyLookup fields ("response")).getD (Json.str ("")))])
      | some _ => Except.error (AdapterError.uncaught ("AttributeError"))

/-- Run the chosen adapter: the stub is pure, the Ollama adapter consumes
the HTTP outcome. -/
def runAdapter (adapter : AdapterChoice) (paperContent : String) (rubric : RubricDescriptor)
    (outcome : OllamaOutcome) : Except AdapterError Json :=
  match adapter with
  | AdapterChoice.stub => Except.ok (jsonOfStubResponse (stubEvaluate paperContent rubric))
  | AdapterChoice.ollama _ _ => ollamaEvaluate outcome

/-- How create_evaluation surfaces adapter failures: RuntimeError is caught
and re-raised as HTTP 502; any other exception escapes the handler. -/
def mapAdapterFailure : Except AdapterError Json → Except ApiFailure Json
  | Except.error (AdapterError.runtimeError msg) => Except.error (ApiFailure.http 502 msg)
  | Except.error (AdapterError.uncaught n) => Except.error (ApiFailure.uncaught n)
  | Except.ok j => Except.ok j

def jsonEscape (s : String) : String :=
  String.mk (s.data.foldr
    (fun c acc =>
      if c = '"' then '\\' :: '"' :: acc
      else if c = '\\' then '\\' :: '\\' :: acc
      else c :: acc) [])

mutual

/-- Serialization of a JSON value to text (json.dumps). -/
def jsonDumps : Json → String
  | Json.null => "null"
  | Json.bool true => "true"
  | Json.bool false => "false"
  | Json.int n => toString n
  | Json.str s => "\"" ++ jsonEscape s ++ "\""
  | Json.arr items => "[" ++ jsonDumpsArray items ++ "]"
  | Json.obj fields => "\x7b" ++ jsonDumpsFields fields ++ "\x7d"

def jsonDumpsArray : List Json → String
  | [] => ""
  | [j] => jsonDumps j
  | j :: rest => jsonDumps j ++ ", " ++ jsonDumpsArray rest

def jsonDumpsFields : List (String × Json) → String
  | [] => ""
  | [(k, v)] => "\"" ++ jsonEscape k ++ "\": " ++ jsonDumps v
  | (k, v) :: rest => "\"" ++ jsonEscape k ++ "\": " ++ jsonDumps v ++ ", " ++ jsonDumpsFields rest

end

/-- Request body of POST /api/evaluations (schemas/evaluation.py
EvaluationCreate). -/
structure EvaluationCreatePayload where
  paper_id : Nat
  rubric_id : Nat
  prompt_id : Option Nat
  model_response : Option Json

/-- The criteria of a rubric (the rubric.criteria relationship). -/
def rubricCriteria (db : Db) (rubricId : Nat) : List Criterion :=
  db.criteria.filter (fun c => c.rubric_id == rubricId)

/-- The rubric dict create_evaluation builds as the adapter's argument: the
criteria comprehension reads c.min_score on each stored criterion row, an
attribute the Criterion model does not define, so the build raises an
uncaught AttributeError as soon as the rubric has a stored criterion; with
no stored criteria the comprehension is empty and the dict is built. -/
def buildRubricDescriptor (db : Db) (rubric : Rubric) : Except ApiFailure RubricDescriptor :=
  if (rubricCriteria db rubric.id).isEmpty then
    Except.ok { id := some rubric.id, name := some rubric.name,
                scoring_type := some rubric.scoring_type, criteria := [] }
  else Except.error (ApiFailure.uncaught ("AttributeError"))

/-- Outcome of _serialize_evaluation (api/evaluations.py) on a committed
evaluation row: the criteria block reads c.min_score on each criterion of
the evaluation's rubric and the feedback block calls _serialize_feedback,
which reads entry.rubric_id - neither attribute exists on the models - so
serialization raises an uncaught AttributeError whenever the rubric has a
stored criterion or the evaluation has an attached feedback entry; when
neither applies, the response is built from the row. -/
def serializeEvaluationOutcome (db : Db) (ev : Evaluation) : Except ApiFailure Evaluation :=
  let criteriaPresent :=
    match findRubric db ev.rubric_id with
    | some rubric => !(rubricCriteria db rubric.id).isEmpty
    | none => false
  let feedbackPresent := db.feedback_entries.any (fun f => f.evaluation_id == ev.id)
  if criteriaPresent || feedbackPresent then
    Except.error (ApiFailure.uncaught ("AttributeError"))
  else Except.ok ev

/-- Prompt resolution step of create_evaluation: an explicit prompt_id must
exist, otherwise the default prompt is resolved or created (flushed but
not yet committed). -/
def resolvePrompt (db : Db) (promptId : Option Nat) : Except ApiFailure (Prompt × Db) :=
  match promptId with
  | some pid =>
    match findPrompt db pid with
    | none => Except.error (ApiFailure.http 404 ("Prompt not found"))
    | some prompt => Except.ok (prompt, db)
  | none => Except.ok (getOrCreateDefaultPrompt db)

/-- The evaluation row create_evaluation inserts. -/
def insertedEvaluation (db1 : Db) (paper : Paper) (rubric : Rubric) (prompt : Prompt)
    (modelResponse : Json) (now : Nat) : Evaluation :=
  { id := db1.next_evaluation_id, paper_id := paper.id, rubric_id := rubric.id,
    prompt_id := prompt.id, model_response := jsonDumps modelResponse,
    is_correct := none, created_at := now }

/-- Embedding of create_evaluation (api/evaluations.py): resolve paper,
rubric and prompt (the default prompt is flushed, not yet committed), then
produce the response payload - a truthy explicit model_response
short-circuits the or-expression, otherwise the adapter argument is built
(raising AttributeError for criteria-bearing rubrics) and the adapter runs
- then insert the evaluation with is_correct null, bump the prompt
evaluation counter and commit, and finally serialize the response. The
first component is the store after the request: a failure before the
commit rolls the session back (discarding the flushed default prompt),
while the serialization failure happens after the commit. -/
def createEvaluation (db : Db) (payload : EvaluationCreatePayload) (settings : Settings)
    (outcome : OllamaOutcome) (now : Nat) : Db × Except ApiFailure Evaluation :=
  match findPaper db payload.paper_id with
  | none => (db, Except.error (ApiFailure.http 404 ("Paper not found")))
  | some paper =>
    match findRubric db payload.rubric_id with
    | none => (db, Except.error (ApiFailure.http 404 ("Rubric not found")))
    | some rubric =>
      match resolvePrompt db payload.prompt_id with
      | Except.error e => (db, Except.error e)
      | Except.ok (prompt, db1) =>
        let adapter := getAdapter none settings
        let adapterCall : Except ApiFailure Json :=
          match buildRubricDescriptor db1 rubric with
          | Except.error e => Except.error e
          | Except.ok descriptor =>
            mapAdapterFailure (runAdapter adapter paper.content descriptor outcome)
        let responseRes : Except ApiFailure Json :=
          match payload.model_response with
          | some j => if pyTruthy j then Except.ok j else adapterCall
          | none => adapterCall
        match responseRes with
        | Except.error e => (db, Except.error e)
        | Except.ok modelResponse =>
          let evaluation := insertedEvaluation db1 paper rubric prompt modelResponse now
          let committed : Db := { db1 with
            evaluations := db1.evaluations ++ [evaluation],
            prompts := db1.prompts.map (fun p =>
              if p.id == prompt.id then { p with total_evaluations := p.total_evaluations + 1 } else p),
            next_evaluation_id := db1.next_evaluation_id + 1 }
          (committed, serializeEvaluationOutcome committed evaluation)

/-- Request body of POST /api/evaluations/(id)/feedback (schemas
FeedbackCreate). -/
structure FeedbackCreate where
  criterion_id : Option Nat
  model_score : String
  user_corrected_score : String
  user_explanation : Option String
deriving DecidableEq, Repr

/-- Criterion resolution step of create_or_update_feedback: a given
criterion must exist and belong to the evaluation rubric. -/
def resolveFeedbackCriterion (db : Db) (rubric : Rubric) (criterionId : Option Nat) :
    Except ApiFailure (Option Criterion) :=
  match criterionId with
  | none => Except.ok none
  | some cid =>
    match findCriterion db cid with
    | none => Except.error (ApiFailure.http 404 ("Criterion not found"))
    | some c =>
      if c.rubric_id ≠ rubric.id then
        Except.error (ApiFailure.http 422 ("Criterion does not belong to evaluation rubric"))
      else Except.ok (some c)

/-- The lookup predicate of the existing-entry query of
create_or_update_feedback: evaluation_id equal and criterion_id equal to
the payload value. SQLAlchemy renders the equality with a None payload
criterion as IS NULL, and the criterion_id column is declared NOT NULL, so
that comparison matches no stored row. -/
def pairPred (evaluationId : Nat) (criterionId : Option Nat) : FeedbackEntry → Bool :=
  fun f => f.evaluation_id == evaluationId &&
    (match criterionId with
     | none => false
     | some cid => f.criterion_id == cid)

/-- Replace the first element satisfying the predicate. -/
def replaceFirst (p : α → Bool) (a : α) : List α → List α
  | [] => []
  | x :: rest => if p x then a :: rest else x :: replaceFirst p a rest

/-- Set is_correct to false on the evaluation with the given id. -/
def setIncorrect (evaluationId : Nat) (evals : List Evaluation) : List Evaluation :=
  evals.map (fun e => if e.id == evaluationId then { e with is_correct := some false } else e)

/-- Embedding of create_or_update_feedback (api/evaluations.py) over the
feedback_entries table as declared in models/database.py: resolve the
evaluation, its rubric and the optional criterion and validate the
corrected score; then, when an entry for the (evaluation, criterion) pair
exists, update it in place, flag the evaluation incorrect and commit -
after which _serialize_feedback reads entry.rubric_id, an attribute the
model does not define, raising an uncaught AttributeError after the commit
- and when no entry exists, the FeedbackEntry constructor is called with a
rubric_id keyword the model does not declare, raising an uncaught
TypeError before any store change. The first component is the store after
the request; no path returns a 201 response. -/
def createOrUpdateFeedback (db : Db) (evaluationId : Nat) (payload : FeedbackCreate) :
    Db × Except ApiFailure Unit :=
  match findEvaluation db evaluationId with
  | none => (db, Except.error (ApiFailure.http 404 ("Evaluation not found")))
  | some evaluation =>
    match findRubric db evaluation.rubric_id with
    | none => (db, Except.error (ApiFailure.http 404 ("Rubric not found for evaluation")))
    | some rubric =>
      match resolveFeedbackCriterion db rubric payload.criterion_id with
      | Except.error e => (db, Except.error e)
      | Except.ok criterion =>
        match validateCorrectedScore rubric.scoring_type payload.user_corrected_score criterion with
        | Except.error e => (db, Except.error e)
        | Except.ok correctedScore =>
          match db.feedback_entries.find? (pairPred evaluation.id payload.criterion_id) with
          | some existing =>
            let updated := { existing with
              model_score := pyStrip payload.model_score,
              user_corrected_score := correctedScore,
              user_explanation := payload.user_explanation }
            let committed := { db with
              feedback_entries :=
                replaceFirst (pairPred evaluation.id payload.criterion_id) updated db.feedback_entries,
              evaluations := setIncorrect evaluation.id db.evaluations }
            (committed, Except.error (ApiFailure.uncaught ("AttributeError")))
          | none =>
            (db, Except.error (ApiFailure.uncaught ("TypeError")))

/-- Embedding of update_feedback (api/evaluations.py, the PATCH endpoint):
set is_correct on the evaluation unconditionally and commit - no other
store change - then serialize the response (which raises after the commit
when the rubric has stored criteria or feedback rows are attached). -/
def updateFeedback (db : Db) (evaluationId : Nat) (isCorrect : Bool) :
    Db × Except ApiFailure Evaluation :=
  match findEvaluation db evaluationId with
  | none => (db, Except.error (ApiFailure.http 404 ("Evaluation not found")))
  | some evaluation =>
    let updated := { evaluation with is_correct := some isCorrect }
    let committed := { db with evaluations := db.evaluations.map (fun e =>
        if e.id == evaluation.id then { e with is_correct := some isCorrect } else e) }
    (committed, serializeEvaluationOutcome committed updated)

/-- Store states reachable by the embedded operations. The otherTables step
over-approximates every endpoint that touches no prompt row (paper, rubric
and criterion CRUD, feedback recording, correctness updates, cascades):
such an endpoint may rewrite those tables arbitrarily but leaves the
prompts table and its autoincrement counter alone. -/
inductive Reachable : Db → Prop where
  | init : Reachable Db.empty
  | promptCreated {db : Db} (payload : PromptCreatePayload) {p : Prompt} {db2 : Db} :
      Reachable db → createPrompt db payload = Except.ok (p, db2) → Reachable db2
  | promptUpdated {db : Db} (promptId : Nat) (payload : PromptUpdatePayload) {p : Prompt} {db2 : Db} :
      Reachable db → updatePrompt db promptId payload = Except.ok (p, db2) → Reachable db2
  | promptActivated {db : Db} (promptId : Nat) {p : Prompt} {db2 : Db} :
      Reachable db → activatePrompt db promptId = Except.ok (p, db2) → Reachable db2
  | evaluationCreated {db : Db} (payload : EvaluationCreatePayload) (settings : Settings)
      (outcome : OllamaOutcome) (now : Nat) {db2 : Db} {res : Except ApiFailure Evaluation} :
      Reachable db → createEvaluation db payload settings outcome now = (db2, res) →
      Reachable db2
  | otherTables {db : Db} (papers : List Paper) (rubrics : List Rubric)
      (criteria : List Criterion) (evaluations : List Evaluation)
      (feedback : List FeedbackEntry) (nextEvaluationId nextFeedbackId : Nat) :
      Reachable db →
      Reachable { papers := papers, rubrics := rubrics, criteria := criteria,
                  prompts := db.prompts, evaluations := evaluations,
                  feedback_entries := feedback, next_prompt_id := db.next_prompt_id,
                  next_evaluation_id := nextEvaluationId, next_feedback_id := nextFeedbackId }

/-- Number of active prompts in the store. -/
def activePromptCount (db : Db) : Nat :=
  db.prompts.countP (fun p => p.is_active)

/-- The provider name resolution the spec prescribes: override first, then
the named-provider setting (Python or-semantics: an empty override falls
through). -/
def specChosenProvider (provider : Option String) (settings : Settings) : String :=
  match provider with
  | some p => if p = "" then settings.model_provider else p
  | none => settings.model_provider

/-- A concrete stored criterion row used by the concrete instantiations. -/
def critA : Criterion :=
  { id := 1, rubric_id := 1, name := "c1", description := none, order := 0 }

/-- A concrete store with one paper, one numerical rubric and one stored
criterion (no prompts, evaluations or feedback yet). -/
def dbA : Db :=
  { papers := [{ id := 1, title := "T", content := "C", rubric_id := some 1 }],
    rubrics := [{ id := 1, name := "R", description := none, scoring_type := "numerical" }],
    criteria := [{ id := 1, rubric_id := 1, name := "c1", description := none, order := 0 }],
    prompts := [], evaluations := [], feedback_entries := [],
    next_prompt_id := 1, next_evaluation_id := 1, next_feedback_id := 1 }

def rubricA : Rubric := { id := 1, name := "R", description := none, scoring_type := "numerical" }

def evalPayloadA : EvaluationCreatePayload :=
  { paper_id := 1, rubric_id := 1, prompt_id := none, model_response := none }

def promptPayloadA : PromptCreatePayload :=
  { template_text := defaultPromptTemplate, parent_version_id := none, is_active := true }

def promptA : Prompt :=
  { id := 1, version := 1, template_text := defaultPromptTemplate,
    parent_version_id := none, is_active := true, total_evaluations := 0 }

/-- The store reached from the empty store by creating promptA. -/
def dbP1 : Db := { Db.empty with prompts := [promptA], next_prompt_id := 2 }

/-- Settings with the Ollama enable flag set (and the provider setting left
at its stub default). -/
def settingsB : Settings :=
  { model_provider := "stub", ollama_enabled := true,
    ollama_base_url := "http://localhost:11434", ollama_model := "llama3.1:8b" }

/-- A numerical rubric descriptor with one criterion bounded 0..10. -/
def rubricDescNum10 : RubricDescriptor :=
  { id := some 1, name := some ("R"), scoring_type := some ("numerical"),
    criteria := [{ id := some 1, name := some ("c1"), description := none,
                   min_score := some 0, max_score := some 10 }] }

/-- A numerical rubric descriptor with one criterion bounded 0..20. -/
def rubricDescNum20 : RubricDescriptor :=
  { id := some 1, name := some ("R"), scoring_type := some ("numerical"),
    criteria := [{ id := some 1, name := some ("c1"), description := none,
                   min_score := some 0, max_score := some 20 }] }

/-- A numerical rubric descriptor with no criteria. -/
def rubricDescEmpty : RubricDescriptor :=
  { id := none, name := none, scoring_type := some ("numerical"), criteria := [] }

/-- A concrete paper row. -/
def paperA : Paper := { id := 1, title := "T", content := "C", rubric_id := some 1 }

/-- A concrete yes/no rubric. -/
def rubricY : Rubric := { id := 1, name := "R", description := none, scoring_type := "yes_no" }

/-- A concrete unreviewed evaluation over rubricY. -/
def evalE : Evaluation :=
  { id := 1, paper_id := 1, rubric_id := 1, prompt_id := 1, model_response := "x",
    is_correct := none, created_at := 0 }

/-- A concrete store with one paper, one yes/no rubric, one prompt and one
evaluation, and no feedback yet. -/
def dbF : Db :=
  { papers := [paperA], rubrics := [rubricY], criteria := [], prompts := [promptA],
    evaluations := [evalE], feedback_entries := [],
    next_prompt_id := 2, next_evaluation_id := 2, next_feedback_id := 1 }

/-- First feedback submission (overall, no criterion). -/
def fbPayload1 : FeedbackCreate :=
  { criterion_id := none, model_score := "yes", user_corrected_score := " YES ",
    user_explanation := none }

/-- Second feedback submission for the same pair. -/
def fbPayload2 : FeedbackCreate :=
  { criterion_id := none, model_score := "no", user_corrected_score := "no",
    user_explanation := some ("wrong") }

/-- An evaluation-creation payload naming a prompt that does not exist. -/
def evalPayloadB : EvaluationCreatePayload :=
  { paper_id := 1, rubric_id := 1, prompt_id := some 5, model_response := none }

/-- An evaluation-creation payload carrying a present but falsy explicit
response (the empty JSON object). -/
def evalPayloadC : EvaluationCreatePayload :=
  { paper_id := 1, rubric_id := 1, prompt_id := none, model_response := some (Json.obj []) }

/-- An evaluation-creation payload carrying a truthy explicit response. -/
def evalPayloadD : EvaluationCreatePayload :=
  { paper_id := 1, rubric_id := 1, prompt_id := none, model_response := some (Json.str ("v")) }

/-- The store dbA with the criteria table emptied: the same paper and
numerical rubric with no stored criterion, so the adapter-argument build
and the response serialization succeed. -/
def dbB : Db := { dbA with criteria := [] }

/-- The store dbB after the default prompt has been lazily created
(flushed). -/
def dbB1 : Db := { dbB with prompts := [promptA], next_prompt_id := 2 }

/-- The rubric dict built for the criteria-free numerical rubric. -/
def rubricDescB : RubricDescriptor :=
  { id := some 1, name := some ("R"), scoring_type := some ("numerical"), criteria := [] }

/-- The inductive invariant of the prompts table: every id is below the
autoincrement counter, ids are distinct, and at most one prompt is
active. -/
def promptInv (prompts : List Prompt) (nextId : Nat) : Prop :=
  (∀ p ∈ prompts, p.id < nextId)
  ∧ (prompts.map (fun p => p.id)).Nodup
  ∧ prompts.countP (fun p => p.is_active) ≤ 1

theorem countP_map_eq {α : Type} (l : List α) (g : α → α) (q : α → Bool)
    (h : ∀ a ∈ l, q (g a) = q a) : (l.map g).countP q = l.countP q := by
  induction l with
  | nil => rfl
  | cons a rest ih =>
    simp only [List.map_cons, List.countP_cons, h a (by simp)]
    rw [ih (fun b hb => h b (by simp [hb]))]

theorem map_id_map_eq (l : List Prompt) (g : Prompt → Prompt)
    (h : ∀ p ∈ l, (g p).id = p.id) :
    (l.map g).map (fun p => p.id) = l.map (fun p => p.id) := by
  induction l with
  | nil => rfl
  | cons p rest ih =>
    simp only [List.map_cons, h p (by simp)]
    rw [ih (fun b hb => h b (by simp [hb]))]

theorem ensure_id_eq (a : Option Nat) (p : Prompt) :
    (if a == some p.id then p else { p with is_active := false }).id = p.id := by
  split <;> rfl

theorem map_id_ensure (l : List Prompt) (a : Option Nat) :
    (ensureSingleActive l a).map (fun p => p.id) = l.map (fun p => p.id) :=
  map_id_map_eq l _ (fun p _ => ensure_id_eq a p)

theorem ensure_countP (l : List Prompt) (i : Nat) :
    (ensureSingleActive l (some i)).countP (fun p => p.is_active) =
      l.countP (fun p => p.is_active && p.id == i) := by
  induction l with
  | nil => rfl
  | cons p rest ih =>
    simp only [ensureSingleActive] at ih
    by_cases h : i = p.id
    · have hb : (some i == some p.id) = true := by simp [h]
      have hb2 : (p.id == i) = true := by simp [h]
      simp only [ensureSingleActive, List.map_cons, List.countP_cons, hb, if_true, hb2,
        Bool.and_true, ih]
    · have hb : (some i == some p.id) = false := by simp; omega
      have hb2 : (p.id == i) = false := by simp; omega
      simp only [ensureSingleActive, List.map_cons, List.countP_cons, hb, Bool.false_eq_true,
        if_false, hb2, Bool.and_false, ih]

theorem countP_and_le_id (l : List Prompt) (i : Nat) :
    l.countP (fun p => p.is_active && p.id == i) ≤ l.countP (fun p => p.id == i) := by
  induction l with
  | nil => exact Nat.le_refl 0
  | cons p rest ih =>
    simp only [List.countP_cons]
    by_cases h : (p.id == i) = true
    · simp [h]
      split <;> omega
    · rw [Bool.not_eq_true] at h
      simp only [h, Bool.and_false]
      omega

theorem countP_id_eq_count (l : List Prompt) (i : Nat) :
    l.countP (fun p => p.id == i) = (l.map (fun p => p.id)).count i := by
  induction l with
  | nil => rfl
  | cons p rest ih =>
    simp only [List.countP_cons, List.map_cons, List.count_cons, ih]

theorem count_id_zero_of_lt (l : List Prompt) (n : Nat) (h : ∀ p ∈ l, p.id < n) :
    (l.map (fun p => p.id)).count n = 0 := by
  rw [List.count_eq_zero]
  intro hmem
  obtain ⟨p, hp, hpn⟩ := List.mem_map.mp hmem
  exact absurd hpn (Nat.ne_of_lt (h p hp))

theorem minById_eq_none {l : List Prompt} (h : minById l = none) : l = [] := by
  cases l with
  | nil => rfl
  | cons p rest =>
    exfalso
    simp only [minById] at h
    cases hm : minById rest with
    | none => rw [hm] at h; simp at h
    | some q => rw [hm] at h; simp at h

theorem promptInv_insert_inactive {old : List Prompt} {nid : Nat} {newP : Prompt}
    (hid : newP.id = nid) (hact : newP.is_active = false)
    (hinv : promptInv old nid) : promptInv (old ++ [newP]) (nid + 1) := by
  obtain ⟨hbound, hnodup, hcount⟩ := hinv
  refine ⟨?_, ?_, ?_⟩
  · intro q hq
    rcases List.mem_append.mp hq with hq | hq
    · exact Nat.lt_succ_of_lt (hbound q hq)
    · rw [List.mem_singleton.mp hq, hid]
      exact Nat.lt_succ_self nid
  · rw [List.map_append]
    simp only [List.map_cons, List.map_nil]
    rw [List.nodup_append]
    refine ⟨hnodup, List.nodup_singleton _, ?_⟩
    intro a ha hb
    rw [List.mem_singleton.mp hb] at ha
    obtain ⟨q, hq, hqid⟩ := List.mem_map.mp ha
    rw [hid] at hqid
    exact absurd hqid (Nat.ne_of_lt (hbound q hq))
  · rw [List.countP_append]
    simp [List.countP_cons, hact]
    exact hcount

theorem promptInv_insert_ensure {old : List Prompt} {nid : Nat} {newP : Prompt}
    (hid : newP.id = nid) (hact : newP.is_active = true)
    (hbound : ∀ q ∈ old, q.id < nid)
    (hnodup : (old.map (fun q => q.id)).Nodup) :
    promptInv (ensureSingleActive (old ++ [newP]) (some nid)) (nid + 1)
    ∧ (ensureSingleActive (old ++ [newP]) (some nid)).countP (fun q => q.is_active) = 1 := by
  have hcount1 : (ensureSingleActive (old ++ [newP]) (some nid)).countP (fun q => q.is_active) = 1 := by
    rw [ensure_countP, List.countP_append]
    have hz : old.countP (fun q => q.is_active && q.id == nid) = 0 := by
      have hle := countP_and_le_id old nid
      rw [countP_id_eq_count, count_id_zero_of_lt old nid hbound] at hle
      omega
    rw [hz]
    simp [List.countP_cons, hact, hid]
  refine ⟨⟨?_, ?_, ?_⟩, hcount1⟩
  · intro q hq
    have hq2 : q.id ∈ (ensureSingleActive (old ++ [newP]) (some nid)).map (fun p => p.id) :=
      List.mem_map_of_mem _ hq
    rw [map_id_ensure, List.map_append] at hq2
    rcases List.mem_append.mp hq2 with hq2 | hq2
    · obtain ⟨r, hr, hrid⟩ := List.mem_map.mp hq2
      rw [← hrid]
      exact Nat.lt_succ_of_lt (hbound r hr)
    · simp only [List.map_cons, List.map_nil, List.mem_singleton] at hq2
      rw [hq2, hid]
      exact Nat.lt_succ_self nid
  · rw [map_id_ensure, List.map_append]
    simp only [List.map_cons, List.map_nil]
    rw [List.nodup_append]
    refine ⟨hnodup, List.nodup_singleton _, ?_⟩
    intro a ha hb
    rw [List.mem_singleton.mp hb] at ha
    obtain ⟨q, hq, hqid⟩ := List.mem_map.mp ha
    rw [hid] at hqid
    exact absurd hqid (Nat.ne_of_lt (hbound q hq))
  · rw [hcount1]

theorem promptInv_insert_inactive_at (old : List Prompt) (newP : Prompt)
    (hact : newP.is_active = false) (hinv : promptInv old newP.id) :
    promptInv (old ++ [newP]) (newP.id + 1) :=
  promptInv_insert_inactive rfl hact hinv

theorem promptInv_insert_ensure_at (old : List Prompt) (newP : Prompt)
    (hact : newP.is_active = true)
    (hbound : ∀ q ∈ old, q.id < newP.id)
    (hnodup : (old.map (fun q => q.id)).Nodup) :
    promptInv (ensureSingleActive (old ++ [newP]) (some newP.id)) (newP.id + 1)
    ∧ (ensureSingleActive (old ++ [newP]) (some newP.id)).countP (fun q => q.is_active) = 1 :=
  promptInv_insert_ensure rfl hact hbound hnodup

theorem promptInv_createPrompt {db : Db} {payload : PromptCreatePayload} {p : Prompt} {db2 : Db}
    (hinv : promptInv db.prompts db.next_prompt_id)
    (h : createPrompt db payload = Except.ok (p, db2)) :
    promptInv db2.prompts db2.next_prompt_id
    ∧ (payload.is_active = true → activePromptCount db2 = 1) := by
  obtain ⟨hbound, hnodup, hcount⟩ := hinv
  cases hact : payload.is_active with
  | true =>
    simp only [createPrompt, hact, if_true] at h
    split at h
    · exact absurd h (by simp)
    · split at h
      · exact absurd h (by simp)
      · split at h
        · exact absurd h (by simp)
        · rename_i xv version hver xs tmpl hsan xu u hph
          simp only [Except.ok.injEq, Prod.mk.injEq] at h
          obtain ⟨hp, hdb⟩ := h
          subst hp
          subst hdb
          have hins := promptInv_insert_ensure_at db.prompts
            ⟨db.next_prompt_id, version, tmpl, payload.parent_version_id, true, 0⟩
            rfl hbound hnodup
          exact ⟨hins.1, fun _ => hins.2⟩
  | false =>
    simp only [createPrompt, hact, if_false] at h
    split at h
    · exact absurd h (by simp)
    · split at h
      · exact absurd h (by simp)
      · split at h
        · exact absurd h (by simp)
        · rename_i xv version hver xs tmpl hsan xu u hph
          simp only [Except.ok.injEq, Prod.mk.injEq] at h
          obtain ⟨hp, hdb⟩ := h
          subst hp
          subst hdb
          refine ⟨promptInv_insert_inactive_at db.prompts
            ⟨db.next_prompt_id, version, tmpl, payload.parent_version_id, false, 0⟩
            rfl ⟨hbound, hnodup, hcount⟩, ?_⟩
          intro hcontra
          simp [hact] at hcontra

theorem inj_on_ids {l : List Prompt} (hnodup : (l.map (fun p => p.id)).Nodup)
    {a b : Prompt} (ha : a ∈ l) (hb : b ∈ l) (hid : a.id = b.id) : a = b :=
  List.inj_on_of_nodup_map hnodup ha hb hid

theorem countP_active_after_activate (l : List Prompt) (i : Nat) (f : Prompt → Prompt)
    (hfact : ∀ p, (f p).is_active = true) :
    ((ensureSingleActive l (some i)).map (fun p => if p.id == i then f p else p)).countP
      (fun p => p.is_active) = l.countP (fun p => p.id == i) := by
  induction l with
  | nil => rfl
  | cons p rest ih =>
    simp only [ensureSingleActive] at ih
    by_cases h : i = p.id
    · have hb : (some i == some p.id) = true := by simp [h]
      have hb2 : (p.id == i) = true := by simp [h]
      simp only [ensureSingleActive, List.map_cons, hb, if_true, hb2, List.countP_cons,
        hfact p, ih]
    · have hb : (some i == some p.id) = false := by simp; omega
      have hb2 : (p.id == i) = false := by simp; omega
      simp only [ensureSingleActive, List.map_cons, List.countP_cons, hb, Bool.false_eq_true,
        if_false, hb2, ih]

theorem promptInv_updatePrompt {db : Db} {promptId : Nat} {payload : PromptUpdatePayload}
    {p : Prompt} {db2 : Db}
    (hinv : promptInv db.prompts db.next_prompt_id)
    (h : updatePrompt db promptId payload = Except.ok (p, db2)) :
    promptInv db2.prompts db2.next_prompt_id := by
  obtain ⟨hbound, hnodup, hcount⟩ := hinv
  simp only [updatePrompt] at h
  split at h
  · exact absurd h (by simp)
  · rename_i prompt hfind
    have hmem : prompt ∈ db.prompts := List.mem_of_find?_eq_some hfind
    have hpid : prompt.id = promptId := by
      have := List.find?_some hfind
      simpa using this
    split at h
    · exact absurd h (by simp)
    · rename_i xr p1 hp1
      have hfacts : p1.id = prompt.id ∧ p1.is_active = prompt.is_active := by
        cases hm : payload.template_text with
        | none =>
          simp only [hm, Except.ok.injEq] at hp1
          subst hp1
          exact ⟨rfl, rfl⟩
        | some t =>
          simp only [hm] at hp1
          split at hp1
          · exact absurd hp1 (by simp)
          · split at hp1
            · exact absurd hp1 (by simp)
            · simp only [Except.ok.injEq] at hp1
              subst hp1
              exact ⟨rfl, rfl⟩
      obtain ⟨hp1id, hp1act⟩ := hfacts
      have hid_inner : ∀ q ∈ db.prompts, ((if q.id == promptId then p1 else q)).id = q.id := by
        intro q hq
        by_cases hqi : (q.id == promptId) = true
        · rw [if_pos hqi, hp1id, hpid]
          exact (beq_iff_eq.mp hqi).symm
        · rw [Bool.not_eq_true] at hqi
          rw [hqi]
          simp
      have hp1idp : p1.id = promptId := by rw [hp1id, hpid]
      split at h
      · -- is_active = some true
        simp only [Except.ok.injEq, Prod.mk.injEq] at h
        obtain ⟨hp, hdb⟩ := h
        subst hp
        subst hdb
        have houter : ∀ q ∈ ensureSingleActive
            (db.prompts.map (fun r => if r.id == promptId then p1 else r)) (some promptId),
            ((if q.id == promptId then { p1 with is_active := true } else q)).id = q.id := by
          intro q hq
          by_cases hqi : (q.id == promptId) = true
          · rw [if_pos hqi]
            exact hp1idp.trans (beq_iff_eq.mp hqi).symm
          · rw [Bool.not_eq_true] at hqi
            simp [hqi]
        have hids : (((ensureSingleActive
            (db.prompts.map (fun r => if r.id == promptId then p1 else r)) (some promptId)).map
            (fun q => if q.id == promptId then { p1 with is_active := true } else q)).map
            (fun q => q.id)) = db.prompts.map (fun q => q.id) := by
          rw [map_id_map_eq _ _ houter, map_id_ensure, map_id_map_eq _ _ hid_inner]
        refine ⟨?_, ?_, ?_⟩
        · intro q hq
          have hq2 : q.id ∈ db.prompts.map (fun r => r.id) := by
            rw [← hids]
            exact List.mem_map_of_mem _ hq
          obtain ⟨r, hr, hrid⟩ := List.mem_map.mp hq2
          rw [← hrid]
          exact hbound r hr
        · rw [hids]
          exact hnodup
        · rw [countP_active_after_activate _ _ _ (fun q => rfl)]
          rw [countP_map_eq]
          · rw [countP_id_eq_count]
            exact (List.nodup_iff_count_le_one.mp hnodup) promptId
          · intro q hq
            by_cases hqi : (q.id == promptId) = true
            · rw [if_pos hqi]
              have hq2 : q.id = promptId := beq_iff_eq.mp hqi
              simp [hq2, hp1idp]
            · rw [Bool.not_eq_true] at hqi
              simp [hqi]
      · -- is_active = some false
        simp only [Except.ok.injEq, Prod.mk.injEq] at h
        obtain ⟨hp, hdb⟩ := h
        subst hp
        subst hdb
        have hptw : ∀ r ∈ db.prompts,
            ((if r.id == promptId then { p1 with is_active := false } else r)).id = r.id := by
          intro r hr
          by_cases hri : (r.id == promptId) = true
          · rw [if_pos hri]
            exact hp1idp.trans (beq_iff_eq.mp hri).symm
          · rw [Bool.not_eq_true] at hri
            simp [hri]
        refine ⟨?_, ?_, ?_⟩
        · intro q hq
          obtain ⟨r, hr, hrq⟩ := List.mem_map.mp hq
          have hq2 : q.id = r.id := by
            rw [← hrq]
            exact hptw r hr
          rw [hq2]
          exact hbound r hr
        · rw [map_id_map_eq _ _ hptw]
          exact hnodup
        · rw [List.countP_map]
          refine le_trans (List.countP_mono_left ?_) hcount
          intro q hq hqact
          simp only [Function.comp_apply] at hqact
          by_cases hqi : (q.id == promptId) = true
          · rw [if_pos hqi] at hqact
            simp at hqact
          · rw [Bool.not_eq_true] at hqi
            rw [hqi] at hqact
            simp only [Bool.false_eq_true, if_false] at hqact
            exact hqact
      · -- is_active = none
        simp only [Except.ok.injEq, Prod.mk.injEq] at h
        obtain ⟨hp, hdb⟩ := h
        subst hp
        subst hdb
        refine ⟨?_, ?_, ?_⟩
        · intro q hq
          obtain ⟨r, hr, hrq⟩ := List.mem_map.mp hq
          have hq2 : q.id = r.id := by
            rw [← hrq]
            exact hid_inner r hr
          rw [hq2]
          exact hbound r hr
        · rw [map_id_map_eq _ _ hid_inner]
          exact hnodup
        · rw [List.countP_map]
          refine le_trans (List.countP_mono_left ?_) hcount
          intro q hq hqact
          simp only [Function.comp_apply] at hqact
          by_cases hqi : (q.id == promptId) = true
          · rw [if_pos hqi] at hqact
            have hq2 : q.id = promptId := beq_iff_eq.mp hqi
            have hqp : q = prompt := inj_on_ids hnodup hq hmem (by rw [hq2, hpid])
            rw [hqp, ← hp1act]
            exact hqact
          · rw [Bool.not_eq_true] at hqi
            rw [hqi] at hqact
            simp only [Bool.false_eq_true, if_false] at hqact
            exact hqact

theorem promptInv_activatePrompt {db : Db} {promptId : Nat} {p : Prompt} {db2 : Db}
    (hinv : promptInv db.prompts db.next_prompt_id)
    (h : activatePrompt db promptId = Except.ok (p, db2)) :
    promptInv db2.prompts db2.next_prompt_id := by
  obtain ⟨hbound, hnodup, hcount⟩ := hinv
  simp only [activatePrompt] at h
  split at h
  · exact absurd h (by simp)
  · rename_i prompt hfind
    simp only [Except.ok.injEq, Prod.mk.injEq] at h
    obtain ⟨hp, hdb⟩ := h
    subst hp
    subst hdb
    have hids : (((ensureSingleActive db.prompts (some promptId)).map
        (fun q => if q.id == promptId then { q with is_active := true } else q)).map
        (fun q => q.id)) = db.prompts.map (fun q => q.id) := by
      rw [map_id_map_eq, map_id_ensure]
      intro q hq
      by_cases hqi : (q.id == promptId) = true
      · rw [if_pos hqi]
      · rw [Bool.not_eq_true] at hqi
        simp [hqi]
    refine ⟨?_, ?_, ?_⟩
    · intro q hq
      have hq2 : q.id ∈ db.prompts.map (fun r => r.id) := by
        rw [← hids]
        exact List.mem_map_of_mem _ hq
      obtain ⟨r, hr, hrid⟩ := List.mem_map.mp hq2
      rw [← hrid]
      exact hbound r hr
    · rw [hids]
      exact hnodup
    · rw [countP_active_after_activate _ _ _ (fun q => rfl)]
      rw [countP_id_eq_count]
      exact (List.nodup_iff_count_le_one.mp hnodup) promptId

theorem promptInv_getOrCreateDefault {db : Db} (hinv : promptInv db.prompts db.next_prompt_id) :
    promptInv (getOrCreateDefaultPrompt db).2.prompts
      (getOrCreateDefaultPrompt db).2.next_prompt_id := by
  unfold getOrCreateDefaultPrompt
  cases hm : minById db.prompts with
  | some q => exact hinv
  | none =>
    have hempty := minById_eq_none hm
    rw [hempty]
    refine ⟨?_, ?_, ?_⟩
    · intro p hp
      simp only [List.nil_append, List.mem_singleton] at hp
      rw [hp]
      exact Nat.lt_succ_self _
    · simp
    · simp [List.countP_cons]

theorem promptInv_createEvaluation {db : Db} {payload : EvaluationCreatePayload}
    {settings : Settings} {outcome : OllamaOutcome} {now : Nat} {db2 : Db}
    {res : Except ApiFailure Evaluation}
    (hinv : promptInv db.prompts db.next_prompt_id)
    (h : createEvaluation db payload settings outcome now = (db2, res)) :
    promptInv db2.prompts db2.next_prompt_id := by
  simp only [createEvaluation] at h
  split at h
  · simp only [Prod.mk.injEq] at h
    obtain ⟨hdb, -⟩ := h
    subst hdb
    exact hinv
  · split at h
    · simp only [Prod.mk.injEq] at h
      obtain ⟨hdb, -⟩ := h
      subst hdb
      exact hinv
    · split at h
      · simp only [Prod.mk.injEq] at h
        obtain ⟨hdb, -⟩ := h
        subst hdb
        exact hinv
      · rename_i xp paper hpap xr rubric hrub xres prompt db1 hres
        split at h
        · simp only [Prod.mk.injEq] at h
          obtain ⟨hdb, -⟩ := h
          subst hdb
          exact hinv
        · simp only [Prod.mk.injEq] at h
          obtain ⟨hdb, -⟩ := h
          subst hdb
          have hinv1 : promptInv db1.prompts db1.next_prompt_id := by
            simp only [resolvePrompt] at hres
            split at hres
            · split at hres
              · exact absurd hres (by simp)
              · simp only [Except.ok.injEq, Prod.mk.injEq] at hres
                obtain ⟨hp0, hdb1⟩ := hres
                subst hdb1
                exact hinv
            · simp only [Except.ok.injEq] at hres
              have hdb1 : db1 = (getOrCreateDefaultPrompt db).2 := by
                rw [hres]
              rw [hdb1]
              exact promptInv_getOrCreateDefault hinv
          obtain ⟨hbound, hnodup, hcount⟩ := hinv1
          have hptw : ∀ r ∈ db1.prompts,
              ((if r.id == prompt.id then { r with total_evaluations := r.total_evaluations + 1 }
                else r)).id = r.id := by
            intro r hr
            split <;> rfl
          refine ⟨?_, ?_, ?_⟩
          · intro q hq
            obtain ⟨r, hr, hrq⟩ := List.mem_map.mp hq
            have hq2 : q.id = r.id := by
              rw [← hrq]
              exact hptw r hr
            rw [hq2]
            exact hbound r hr
          · rw [map_id_map_eq _ _ hptw]
            exact hnodup
          · rw [countP_map_eq]
            · exact hcount
            · intro r hr
              split <;> rfl

theorem promptInv_reachable {db : Db} (h : Reachable db) :
    promptInv db.prompts db.next_prompt_id := by
  induction h with
  | init =>
    refine ⟨?_, ?_, ?_⟩
    · intro p hp
      simp [Db.empty] at hp
    · simp [Db.empty]
    · simp [Db.empty]
  | promptCreated payload hre hop ih => exact (promptInv_createPrompt ih hop).1
  | promptUpdated promptId payload hre hop ih => exact promptInv_updatePrompt ih hop
  | promptActivated promptId hre hop ih => exact promptInv_activatePrompt ih hop
  | evaluationCreated payload settings outcome now hre hop ih =>
    exact promptInv_createEvaluation ih hop
  | otherTables papers rubrics criteria evaluations feedback ne nf hre ih => exact ih

/-- C1: in every reachable store state at most one Prompt is active, and
this is preserved by every prompt operation (create with either activity,
update, activate, and the lazy default-prompt creation inside evaluation
creation, all of which are reachability steps); moreover creating a Prompt
with is_active true from any reachable state leaves exactly one active
Prompt system-wide, however many prompts pre-existed. -/
theorem prompt_single_active_claim :
    (∀ db : Db, Reachable db → activePromptCount db ≤ 1)
    ∧ (∀ (db : Db) (payload : PromptCreatePayload) (p : Prompt) (db2 : Db),
        Reachable db → payload.is_active = true →
        createPrompt db payload = Except.ok (p, db2) → activePromptCount db2 = 1) := by
  constructor
  · intro db h
    exact (promptInv_reachable h).2.2
  · intro db payload p db2 hre hact hop
    exact (promptInv_createPrompt (promptInv_reachable hre) hop).2 hact

/-- Concrete instantiation of the single-active-prompt claim: the store
obtained by creating one active prompt in the empty store has exactly one
active prompt. -/
theorem prompt_single_active_claim_witness :
    activePromptCount dbP1 ≤ 1 ∧ activePromptCount dbP1 = 1 := by
  have hre : Reachable Db.empty := Reachable.init
  have hop : createPrompt Db.empty promptPayloadA = Except.ok (promptA, dbP1) := by decide
  exact ⟨prompt_single_active_claim.1 dbP1 (Reachable.promptCreated promptPayloadA hre hop),
    prompt_single_active_claim.2 Db.empty promptPayloadA promptA dbP1 hre (by decide) hop⟩

/-- C2 (claim vs code): the spec says numerical validation accepts exactly
the integers within the criterion's [minScore, maxScore] range; but the
criteria table of models/database.py declares no min_score or max_score
column, so whenever a criterion row is supplied the validator's range
check reads criterion.min_score and raises an uncaught AttributeError for
every parsable score - in range or not - and the claimed bounded
acceptance is unreachable; only the non-integer 422 rejection (raised by
the parse, before the criterion is touched) and the criterion-free
canonicalization survive. -/
theorem numerical_validation_code_bug :
    validateCorrectedScore ("numerical") ("5") (some critA) =
      Except.error (ApiFailure.uncaught ("AttributeError"))
    ∧ validateCorrectedScore ("numerical") (" 07 ") (some critA) =
        Except.error (ApiFailure.uncaught ("AttributeError"))
    ∧ validateCorrectedScore ("numerical") ("abc") (some critA) =
        Except.error (ApiFailure.http 422
          ("For numerical rubrics, corrected score must be an integer."))
    ∧ validateCorrectedScore ("numerical") (" 07 ") none = Except.ok ("7") := by decide

/-- C3 (claim vs code): the spec says a repeat submission for the same
(evaluation, criterion) pair overwrites the stored entry, leaving exactly
one; but the feedback_entries table of models/database.py declares no
rubric_id column, so the insert branch's FeedbackEntry constructor raises
an uncaught TypeError on its rubric_id keyword before any store change:
both submissions fail, the store is unchanged, and zero entries - not one
- are stored for the pair. -/
theorem feedback_upsert_code_bug :
    (createOrUpdateFeedback dbF 1 fbPayload1).2 =
      Except.error (ApiFailure.uncaught ("TypeError"))
    ∧ (createOrUpdateFeedback (createOrUpdateFeedback dbF 1 fbPayload1).1 1 fbPayload2).2 =
        Except.error (ApiFailure.uncaught ("TypeError"))
    ∧ (createOrUpdateFeedback (createOrUpdateFeedback dbF 1 fbPayload1).1 1
        fbPayload2).1.feedback_entries = [] := by decide

/-- C4 (claim vs code): the spec says a successful feedback submission
forces the evaluation's is_correct flag to false; but no submission can
succeed - the FeedbackEntry constructor raises an uncaught TypeError
before the is_correct assignment and the commit - so the submission leaves
the store, including the null is_correct flag, untouched; the explicit
PATCH setter, which constructs no FeedbackEntry, does set the flag
unconditionally with no other store change (and on this criteria-free,
feedback-free store its response also serializes). -/
theorem feedback_incorrect_code_bug :
    (createOrUpdateFeedback dbF 1 fbPayload1).1 = dbF
    ∧ ((createOrUpdateFeedback dbF 1 fbPayload1).1.evaluations.map
        (fun e => e.is_correct)) = [none]
    ∧ updateFeedback dbF 1 true =
        ({ dbF with evaluations := [{ evalE with is_correct := some true }] },
          Except.ok ({ evalE with is_correct := some true }))
    ∧ updateFeedback dbF 1 false =
        ({ dbF with evaluations := [{ evalE with is_correct := some false }] },
          Except.ok ({ evalE with is_correct := some false })) := by decide

/-- C5 (claim vs code): the spec says overall feedback (no criterion)
succeeds with a stored null-criterion entry serialized with the rubric id;
but the feedback_entries table of models/database.py declares no rubric_id
column and its criterion_id column is NOT NULL, so the insert raises an
uncaught TypeError on the rubric_id keyword before any store change (a
null criterion_id could not be stored and _serialize_feedback could not
read entry.rubric_id either): the overall submission fails and nothing is
stored. -/
theorem overall_feedback_code_bug :
    createOrUpdateFeedback dbF 1 fbPayload2 =
      (dbF, Except.error (ApiFailure.uncaught ("TypeError")))
    ∧ (createOrUpdateFeedback dbF 1 fbPayload2).1.feedback_entries = [] := by decide

/-- C7 counterexample: with the enable flag set, an explicit request
override naming the stub provider still yields the Ollama variant, so the
claimed precedence (override beats the flag) fails on get_adapter. -/
theorem adapter_selection_counterexample :
    getAdapter (some ("stub")) settingsB =
      AdapterChoice.ollama ("http://localhost:11434") ("llama3.1:8b")
    ∧ getAdapter (some ("stub")) settingsB ≠ AdapterChoice.stub := by
  exact ⟨rfl, by decide⟩

/-- C7 amended: the provider NAME is resolved with the claimed precedence
(explicit override when non-empty, else the named-provider setting), but
the variant is the Ollama one whenever the resolved name is ollama OR the
enable flag is set; the stub is chosen exactly when the resolved name is
not ollama and the flag is off. An override naming the stub does not beat
the flag. -/
theorem adapter_selection_amended (provider : Option String) (settings : Settings) :
    (getAdapter provider settings = AdapterChoice.stub ↔
      (specChosenProvider provider settings ≠ "ollama" ∧ settings.ollama_enabled = false))
    ∧ (getAdapter provider settings = AdapterChoice.stub ∨
       getAdapter provider settings =
         AdapterChoice.ollama settings.ollama_base_url settings.ollama_model) := by
  have hdef : getAdapter provider settings =
      (if specChosenProvider provider settings = "ollama" ∨ settings.ollama_enabled then
        AdapterChoice.ollama settings.ollama_base_url settings.ollama_model
      else AdapterChoice.stub) := by
    cases provider with
    | none => rfl
    | some p => rfl
  constructor
  · constructor
    · intro h
      rw [hdef] at h
      by_cases hc : specChosenProvider provider settings = "ollama" ∨ settings.ollama_enabled
      · rw [if_pos hc] at h
        exact absurd h (by simp)
      · push_neg at hc
        exact ⟨hc.1, by simpa using hc.2⟩
    · rintro ⟨h1, h2⟩
      rw [hdef, if_neg (by simp [h1, h2])]
  · rw [hdef]
    by_cases hc : specChosenProvider provider settings = "ollama" ∨ settings.ollama_enabled
    · right
      rw [if_pos hc]
    · left
      rw [if_neg hc]

/-- Concrete instantiation of the amended adapter-selection claim: default
settings yield the stub, and the flagged settings of the counterexample
always yield the Ollama variant. -/
theorem adapter_selection_amended_witness :
    getAdapter none defaultSettings = AdapterChoice.stub
    ∧ getAdapter (some ("ollama")) defaultSettings =
        AdapterChoice.ollama ("http://localhost:11434") ("llama3.1:8b") := by
  constructor
  · exact (adapter_selection_amended none defaultSettings).1.2 (by decide)
  · have h := (adapter_selection_amended (some ("ollama")) defaultSettings).2
    rcases h with h | h
    · exact absurd ((adapter_selection_amended (some ("ollama")) defaultSettings).1.1 h).1
        (by decide)
    · exact h

/-- C9: the stub backend is a pure function of its input; an empty criteria
list yields an empty evaluations list; and per criterion the score is yes
for yes_no, meets for meets_not_meets, the floor midpoint of the bounds
(defaulting to 0 and 10 when absent) for numerical, and yes for any other
scoring type. -/
theorem stub_backend_claim (paperContent paperContent2 : String) (r r2 : RubricDescriptor) :
    (paperContent = paperContent2 → r = r2 →
      stubEvaluate paperContent r = stubEvaluate paperContent2 r2)
    ∧ (r.criteria = [] → (stubEvaluate paperContent r).evaluations = [])
    ∧ (stubEvaluate paperContent r).evaluations.map (fun e => e.score) =
        r.criteria.map (fun c =>
          if r.scoring_type.getD ("yes_no") = "yes_no" then ScoreValue.str ("yes")
          else if r.scoring_type.getD ("yes_no") = "meets_not_meets" then ScoreValue.str ("meets")
          else if r.scoring_type.getD ("yes_no") = "numerical" then
            ScoreValue.int (Int.fdiv ((c.min_score.getD 0) + (c.max_score.getD 10)) 2)
          else ScoreValue.str ("yes")) := by
  refine ⟨?_, ?_, ?_⟩
  · rintro rfl rfl
    rfl
  · intro h
    simp [stubEvaluate, h]
  · simp only [stubEvaluate, List.map_map]
    rfl

/-- Concrete instantiation of the stub-backend claim: bounds 0..10 give the
score 5 and bounds 0..20 give 10, the empty criteria list gives no
evaluations, and a repeated call gives an identical result. -/
theorem stub_backend_claim_witness :
    (stubEvaluate ("paper") rubricDescNum10).evaluations.map (fun e => e.score) =
      [ScoreValue.int 5]
    ∧ (stubEvaluate ("paper") rubricDescNum20).evaluations.map (fun e => e.score) =
        [ScoreValue.int 10]
    ∧ (stubEvaluate ("paper") rubricDescEmpty).evaluations = []
    ∧ stubEvaluate ("paper") rubricDescNum10 = stubEvaluate ("paper") rubricDescNum10 := by
  refine ⟨?_, ?_, ?_, ?_⟩
  · exact ((stub_backend_claim ("paper") ("paper") rubricDescNum10 rubricDescNum10).2.2).trans
      (by decide)
  · exact ((stub_backend_claim ("paper") ("paper") rubricDescNum20 rubricDescNum20).2.2).trans
      (by decide)
  · exact (stub_backend_claim ("paper") ("paper") rubricDescEmpty rubricDescEmpty).2.1 (by decide)
  · exact (stub_backend_claim ("paper") ("paper") rubricDescNum10 rubricDescNum10).1 rfl rfl

/-- C6 (claim vs code): the spec says an evaluation-creation request
without a prompt id lazily creates and references the single default
prompt; but with the stub backend the adapter's rubric argument is built
by reading c.min_score on each stored criterion, an attribute the
Criterion model does not define, so on the criteria-bearing store the
request dies with an uncaught AttributeError before the commit: nothing is
stored and the flushed default prompt is rolled back. On a criteria-free
rubric the claimed resolution does hold - exactly one version-1 active
default prompt is created and the committed evaluation references it - and
an explicitly named but missing prompt id is the claimed 404. -/
theorem default_prompt_code_bug :
    createEvaluation dbA evalPayloadA defaultSettings (OllamaOutcome.response 200 none) 7 =
      (dbA, Except.error (ApiFailure.uncaught ("AttributeError")))
    ∧ ((createEvaluation dbB evalPayloadA defaultSettings
        (OllamaOutcome.response 200 none) 7).1.prompts.map
          (fun p => (p.id, p.version, p.is_active, p.template_text))) =
        [(1, 1, true, defaultPromptTemplate)]
    ∧ ((createEvaluation dbB evalPayloadA defaultSettings
        (OllamaOutcome.response 200 none) 7).2.toOption.map (fun ev => ev.prompt_id)) = some 1
    ∧ (createEvaluation dbB evalPayloadB defaultSettings
        (OllamaOutcome.response 200 none) 7).2 =
        Except.error (ApiFailure.http 404 ("Prompt not found")) := by decide

/-- C8 counterexample: at a store whose rubric has no stored criteria (so
the adapter call is actually reached) a well-formed 200 response whose
body is not JSON makes evaluation creation fail with an uncaught
JSONDecodeError rather than the distinct 502 backend-unavailable error:
resp.json() raises json.JSONDecodeError, which is not an httpx.HTTPError,
so the adapter's except clause does not convert it to RuntimeError and
create_evaluation's RuntimeError handler never fires; nothing is stored. -/
theorem backend_unavailable_counterexample :
    createEvaluation dbB evalPayloadA settingsB (OllamaOutcome.response 200 none) 0 =
      (dbB, Except.error (ApiFailure.uncaught ("JSONDecodeError")))
    ∧ isBadGateway (ApiFailure.uncaught ("JSONDecodeError")) = false := by
  exact ⟨by decide, rfl⟩

/-- C8 amended: when the adapter call is reached (the rubric has no stored
criteria, so the argument build succeeds; any stored criterion raises
AttributeError before any HTTP outcome) with the Ollama adapter selected,
a transport-level error or a non-2xx response is converted to RuntimeError
and surfaced by evaluation creation as the distinct 502
backend-unavailable error with the store unchanged (the flushed default
prompt rolled back); but a 2xx response with a malformed (non-JSON) body
escapes as an uncaught JSONDecodeError instead of the backend-unavailable
error (the store again unchanged). -/
theorem backend_unavailable_amended :
    ∀ (db : Db) (payload : EvaluationCreatePayload) (settings : Settings) (now : Nat)
      (paper : Paper) (rubric : Rubric) (prompt : Prompt) (db1 : Db),
      findPaper db payload.paper_id = some paper →
      findRubric db payload.rubric_id = some rubric →
      resolvePrompt db payload.prompt_id = Except.ok (prompt, db1) →
      rubricCriteria db1 rubric.id = [] →
      settings.ollama_enabled = true →
      payload.model_response = none →
      ((∀ msg : String,
          createEvaluation db payload settings (OllamaOutcome.transportError msg) now =
            (db, Except.error (ApiFailure.http 502 ("Ollama request failed")))
          ∧ isBadGateway (ApiFailure.http 502 ("Ollama request failed")) = true)
       ∧ (∀ (sc : Nat) (body : Option Json), sc < 200 ∨ 300 ≤ sc →
          createEvaluation db payload settings (OllamaOutcome.response sc body) now =
            (db, Except.error (ApiFailure.http 502 ("Ollama request failed"))))
       ∧ (∀ sc : Nat, 200 ≤ sc → sc < 300 →
          createEvaluation db payload settings (OllamaOutcome.response sc none) now =
            (db, Except.error (ApiFailure.uncaught ("JSONDecodeError"))))) := by
  intro db payload settings now paper rubric prompt db1 hpap hrub hres hcrit hflag hmr
  have hadapter : getAdapter none settings =
      AdapterChoice.ollama settings.ollama_base_url settings.ollama_model := by
    unfold getAdapter
    rw [if_pos (Or.inr hflag)]
  have hdescr : buildRubricDescriptor db1 rubric =
      Except.ok { id := some rubric.id, name := some rubric.name,
                  scoring_type := some rubric.scoring_type, criteria := [] } := by
    unfold buildRubricDescriptor
    rw [hcrit]
    rfl
  refine ⟨?_, ?_, ?_⟩
  · intro msg
    refine ⟨?_, rfl⟩
    simp only [createEvaluation, hpap, hrub, hres, hmr, hadapter, hdescr, runAdapter,
      ollamaEvaluate, mapAdapterFailure]
  · intro sc body hsc
    simp only [createEvaluation, hpap, hrub, hres, hmr, hadapter, hdescr, runAdapter,
      ollamaEvaluate]
    rw [if_pos hsc]
    simp only [mapAdapterFailure]
  · intro sc h1 h2
    simp only [createEvaluation, hpap, hrub, hres, hmr, hadapter, hdescr, runAdapter,
      ollamaEvaluate]
    rw [if_neg (by omega)]
    simp only [mapAdapterFailure]

/-- Concrete instantiation of the amended backend-unavailable claim on the
criteria-free store with flag-enabled settings: a transport error and a
500 status each yield the 502 backend-unavailable error, while a 200
response with a non-JSON body escapes as the uncaught JSONDecodeError; in
every case the store is unchanged. -/
theorem backend_unavailable_amended_witness :
    (createEvaluation dbB evalPayloadA settingsB (OllamaOutcome.transportError ("boom")) 0 =
        (dbB, Except.error (ApiFailure.http 502 ("Ollama request failed"))))
    ∧ (createEvaluation dbB evalPayloadA settingsB (OllamaOutcome.response 500 none) 0 =
        (dbB, Except.error (ApiFailure.http 502 ("Ollama request failed"))))
    ∧ (createEvaluation dbB evalPayloadA settingsB (OllamaOutcome.response 200 none) 0 =
        (dbB, Except.error (ApiFailure.uncaught ("JSONDecodeError")))) := by
  have h := backend_unavailable_amended dbB evalPayloadA settingsB 0 paperA rubricA promptA dbB1
    (by decide) (by decide) (by decide) (by decide) (by decide) rfl
  exact ⟨(h.1 ("boom")).1, h.2.1 500 none (by decide), h.2.2 200 (by decide) (by decide)⟩

/-- C10 counterexample: at the criteria-bearing store the present-but-falsy
explicit payload does not lead to a stored adapter result: building the
adapter's rubric argument reads c.min_score on the stored criterion, an
attribute the Criterion model does not define, so the request dies with an
uncaught AttributeError and nothing is stored (the store is returned
unchanged, the flushed default prompt rolled back). -/
theorem falsy_response_counterexample :
    createEvaluation dbA evalPayloadC defaultSettings (OllamaOutcome.response 200 none) 7 =
      (dbA, Except.error (ApiFailure.uncaught ("AttributeError"))) := by decide

/-- C10 amended: restricted to requests on which the adapter-argument build
succeeds (the rubric has no stored criterion; any stored criterion raises
AttributeError first), a present-but-falsy explicit model_response does
not bypass the backend: the stub adapter is invoked and the committed
evaluation row stores its serialized result; a truthy payload is stored
verbatim. -/
theorem falsy_response_amended :
    ∀ (db : Db) (payload : EvaluationCreatePayload) (settings : Settings)
      (outcome : OllamaOutcome) (now : Nat) (paper : Paper) (rubric : Rubric)
      (prompt : Prompt) (db1 : Db) (descriptor : RubricDescriptor) (j : Json),
      findPaper db payload.paper_id = some paper →
      findRubric db payload.rubric_id = some rubric →
      resolvePrompt db payload.prompt_id = Except.ok (prompt, db1) →
      buildRubricDescriptor db1 rubric = Except.ok descriptor →
      getAdapter none settings = AdapterChoice.stub →
      payload.model_response = some j →
      ((pyTruthy j = false →
        insertedEvaluation db1 paper rubric prompt
            (jsonOfStubResponse (stubEvaluate paper.content descriptor)) now
          ∈ (createEvaluation db payload settings outcome now).1.evaluations)
       ∧ (pyTruthy j = true →
        insertedEvaluation db1 paper rubric prompt j now
          ∈ (createEvaluation db payload settings outcome now).1.evaluations)) := by
  intro db payload settings outcome now paper rubric prompt db1 descriptor j hpap hrub hres
    hdescr hstub hmr
  constructor
  · intro ht
    simp only [createEvaluation, hpap, hrub, hres, hmr, hdescr, hstub, runAdapter,
      mapAdapterFailure, ht, Bool.false_eq_true, if_false]
    simp
  · intro ht
    simp only [createEvaluation, hpap, hrub, hres, hmr, ht, if_true]
    simp

/-- Concrete instantiation of the amended falsy-explicit-response claim on
the criteria-free store: the empty-object payload leads to the stub
adapter's serialized result being the committed row's model_response, and
a truthy payload is committed verbatim. -/
theorem falsy_response_amended_witness :
    insertedEvaluation dbB1 paperA rubricA promptA
        (jsonOfStubResponse (stubEvaluate paperA.content rubricDescB)) 7
      ∈ (createEvaluation dbB evalPayloadC defaultSettings
          (OllamaOutcome.response 200 none) 7).1.evaluations
    ∧ insertedEvaluation dbB1 paperA rubricA promptA (Json.str ("v")) 7
      ∈ (createEvaluation dbB evalPayloadD defaultSettings
          (OllamaOutcome.response 200 none) 7).1.evaluations := by
  constructor
  · exact (falsy_response_amended dbB evalPayloadC defaultSettings
      (OllamaOutcome.response 200 none) 7 paperA rubricA promptA dbB1 rubricDescB
      (Json.obj []) (by decide) (by decide) (by decide) (by decide) (by decide) rfl).1
      (by decide)
  · exact (falsy_response_amended dbB evalPayloadD defaultSettings
      (OllamaOutcome.response 200 none) 7 paperA rubricA promptA dbB1 rubricDescB
      (Json.str ("v")) (by decide) (by decide) (by decide) (by decide) (by decide) rfl).2
      (by decide)

end PromptTrainer
